import Mathlib

/-!
Verification of the chatterbot analysis/chart scripts.

Python strings are modelled as `List Char` (one entry per code point, matching
Python's `str` indexing and slicing).  Each definition embeds one helper or
pipeline fragment of the repository's scripts; the theorems at the end of the
file settle the specification claims about them.
-/

set_option maxRecDepth 100000

namespace Chatterbot

/-- A Python string: a list of code points. -/
abbrev PyStr := List Char

/-! ## Label truncation (src/archive/chart_script (3).py lines 60-61,
src/docs/brainstorming_MCP/chart_script.py lines 136, 139-140) -/

/-- Plain truncation, from `group_short[:15] if len(group_short) > 15 else
group_short` (chart_script (3).py) and `x[:15] if len(x) > 15 else x`
(docs chart_script.py line 136). -/
def truncPlain (n : Nat) (s : PyStr) : PyStr :=
  if s.length > n then s.take n else s

/-- Ellipsis-appending truncation, from
`x[:50] + '...' if len(x) > 50 else x` (docs chart_script.py lines 139-140). -/
def truncEllipsis (n : Nat) (s : PyStr) : PyStr :=
  if s.length > n then s.take n ++ ['.', '.', '.'] else s

/-! ## Python string helpers used by the scripts -/

/-- Characters stripped by Python's `str.strip()`. -/
def isPyWs (c : Char) : Bool :=
  c = ' ' || c = '\t' || c = '\n' || c = '\r' || c = '\x0b' || c = '\x0c'

/-- Python `str.strip()`: remove whitespace from both ends. -/
def pyStrip (s : PyStr) : PyStr :=
  ((s.dropWhile isPyWs).reverse.dropWhile isPyWs).reverse

/-- Left-to-right scan replacing every non-overlapping occurrence of `pat`.
Each step consumes at least one character, so fuel equal to the input length
(supplied by `pyReplace`) always suffices; recursion is structural on the
fuel so that concrete runs reduce inside the kernel. -/
def replaceGo (pat repl : PyStr) : Nat → PyStr → PyStr
  | _, [] => []
  | 0, s => s
  | fuel + 1, c :: rest =>
    if pat.isPrefixOf (c :: rest) then
      repl ++ replaceGo pat repl fuel (rest.drop (pat.length - 1))
    else
      c :: replaceGo pat repl fuel rest

/-- Python `str.replace(pat, repl)`; the scripts only call it with nonempty
patterns, so the empty-pattern case (never reached) returns the input. -/
def pyReplace (s pat repl : PyStr) : PyStr :=
  match pat with
  | [] => s
  | _ :: _ => replaceGo pat repl s.length s

/-- Model-name abbreviation of src/archive/chart_script.py line 20:
`.str.replace('Gemini ', 'G').str.replace('Gemma ', 'Ga')
 .str.replace('Flash', 'F').str.replace('-Lite', 'L').str.replace(' & 3n', '')`. -/
def shortenModel (s : PyStr) : PyStr :=
  pyReplace (pyReplace (pyReplace (pyReplace (pyReplace
    s "Gemini ".toList "G".toList)
    "Gemma ".toList "Ga".toList)
    "Flash".toList "F".toList)
    "-Lite".toList "L".toList)
    " & 3n".toList "".toList

/-- Server-name abbreviation of src/docs/brainstorming_MCP/chart_script.py
line 135: `.str.replace('MCP Server', '').str.replace('MCP', '').str.strip()`. -/
def shortenServer (s : PyStr) : PyStr :=
  pyStrip (pyReplace (pyReplace s "MCP Server".toList "".toList)
    "MCP".toList "".toList)

/-! ## Column-oriented tables (the pandas DataFrame shape the scripts use) -/

/-- A DataFrame as the scripts build it: ordered named columns of strings. -/
abbrev Table := List (PyStr × List PyStr)

/-- Column lookup, `df[name]`. -/
def getcol (df : Table) (name : PyStr) : List PyStr :=
  match df.find? (fun kv => kv.1 == name) with
  | some kv => kv.2
  | none => []

/-- Column assignment, `df[name] = vals`: replace the column if it exists,
otherwise append it (pandas keeps existing column order). -/
def setcol (df : Table) (name : PyStr) (vals : List PyStr) : Table :=
  if df.any (fun kv => kv.1 == name) then
    df.map (fun kv => if kv.1 == name then (name, vals) else kv)
  else
    df ++ [(name, vals)]

/-! ## Concrete datasets of the label-deriving scripts -/

/-- String-literal shorthand. -/
def S (s : String) : PyStr := s.toList

/-- Column-literal shorthand. -/
def col (name : String) (vs : List String) : PyStr × List PyStr :=
  (name.toList, vs.map String.toList)

/-- The rate-limit dataset of src/archive/chart_script.py lines 7-15
(numeric cells rendered as their decimal strings). -/
def geminiRateTable : Table := [
  col "Model" ["Gemini 2.5 Flash", "Gemini 2.5 Flash-Lite", "Gemini 2.0 Flash",
    "Gemini 2.0 Flash-Lite", "Gemini 1.5 Flash", "Gemini 1.5 Flash-8B",
    "Gemma 3 & 3n"],
  col "RPM" ["10", "15", "15", "30", "15", "15", "30"],
  col "TPM" ["250000", "250000", "1000000", "1000000", "250000", "250000",
    "15000"],
  col "RPD" ["250", "1000", "200", "200", "50", "50", "14400"],
  col "Status" ["Current", "Current", "Current", "Current", "Deprecated",
    "Deprecated", "Current"],
  col "Available_Free" ["Yes", "Yes", "Yes", "Yes", "Yes", "Yes", "Limited"]]

/-- chart_script.py line 20: `df['Short_Model'] = df['Model'].str.replace(...)`,
the derived label stored as a separate column. -/
def geminiAfterShort : Table :=
  setcol geminiRateTable (S "Short_Model")
    ((getcol geminiRateTable (S "Model")).map shortenModel)

/-- The MCP-server dataset of src/docs/brainstorming_MCP/chart_script.py
lines 5-126. -/
def mcpTable : Table := [
  col "Server Name" ["Discord MCP Server", "Web Search (Brave)",
    "GitHub MCP Server", "Memory/Knowledge Graph", "PostgreSQL MCP",
    "File System MCP", "Notion MCP", "Slack MCP", "OpenAI Tools MCP",
    "Perplexity MCP", "Weather MCP", "Google Calendar MCP", "Redis MCP",
    "Docker MCP", "Stripe MCP"],
  col "Category" ["Discord Integration", "Web Search", "Development Tools",
    "Memory & Knowledge", "Database", "File Operations", "Productivity",
    "Communication", "AI Tools", "AI Search", "Data Services", "Productivity",
    "Database", "DevOps", "Finance"],
  col "Key Features" [
    "Send messages, read history, manage channels, user management, reactions",
    "Privacy-focused search, real-time results, web scraping",
    "Repository management, code search, issue tracking, PRs",
    "Persistent memory, context retention, knowledge graphs",
    "Database queries, schema inspection, data analysis",
    "File read/write, directory management, secure access",
    "Database management, page creation, content organization",
    "Message sending, channel management, workspace integration",
    "Image generation, text processing, AI model access",
    "Real-time web search, AI-powered research, citations",
    "Current weather, forecasts, location-based data",
    "Event management, scheduling, calendar integration",
    "Key-value storage, caching, real-time data",
    "Container management, deployment, scaling",
    "Payment processing, subscription management, billing"],
  col "Best Use Cases" [
    "Direct Discord bot control, server management, automated responses",
    "Information retrieval, fact-checking, research queries",
    "Code assistance, project management, developer workflows",
    "Long-term conversations, user preferences, project continuity",
    "Data-driven responses, analytics, user data management",
    "Document processing, file management, content generation",
    "Knowledge management, documentation, project tracking",
    "Team communication, notifications, workflow automation",
    "Content creation, AI-powered responses, multimedia generation",
    "Research assistance, fact-checking, current events",
    "Weather queries, location services, environmental data",
    "Meeting scheduling, reminders, calendar queries",
    "Session management, caching, real-time features",
    "DevOps automation, container orchestration, deployment",
    "E-commerce, payment queries, subscription management"],
  col "Installation Complexity" ["Medium", "Easy", "Easy", "Medium", "Medium",
    "Easy", "Medium", "Medium", "Easy", "Easy", "Easy", "Medium", "Medium",
    "Hard", "Medium"],
  col "GitHub Stars" ["150+", "200+", "500+", "300+", "180+", "250+", "220+",
    "190+", "400+", "160+", "120+", "140+", "110+", "180+", "200+"]]

/-- docs chart_script.py line 132: strip the `+` and convert to int
(the numeric cell is its decimal string here). -/
def mcpStep0 : Table :=
  setcol mcpTable (S "Stars_Numeric")
    ((getcol mcpTable (S "GitHub Stars")).map
      (fun s => pyReplace s (S "+") (S "")))

/-- docs chart_script.py line 135: abbreviated server names. -/
def mcpStep1 : Table :=
  setcol mcpStep0 (S "Server_Short")
    ((getcol mcpStep0 (S "Server Name")).map shortenServer)

/-- docs chart_script.py line 136: 15-character cut of `Server_Short`. -/
def mcpStep2 : Table :=
  setcol mcpStep1 (S "Server_Short")
    ((getcol mcpStep1 (S "Server_Short")).map (truncPlain 15))

/-- docs chart_script.py line 139: ellipsis-truncated features. -/
def mcpStep3 : Table :=
  setcol mcpStep2 (S "Features_Short")
    ((getcol mcpStep2 (S "Key Features")).map (truncEllipsis 50))

/-- docs chart_script.py line 140: ellipsis-truncated use cases. -/
def mcpStep4 : Table :=
  setcol mcpStep3 (S "Use_Cases_Short")
    ((getcol mcpStep3 (S "Best Use Cases")).map (truncEllipsis 50))

/-! ## CSV export (`df.to_csv(..., index=False)`) and re-reading

pandas writes with `csv.QUOTE_MINIMAL`: a field is quoted exactly when it
contains a comma, a quote, or a line break, and quotes inside a quoted field
are doubled; rows end with a newline. -/

/-- A field must be quoted under QUOTE_MINIMAL. -/
def needsQuote (f : PyStr) : Bool :=
  f.any (fun c => c = ',' || c = '"' || c = '\n' || c = '\r')

/-- Double every quote character inside a quoted field. -/
def escField (f : PyStr) : PyStr :=
  f.foldr (fun c acc => if c = '"' then '"' :: '"' :: acc else c :: acc) []

/-- Render one CSV field. -/
def renderField (f : PyStr) : PyStr :=
  if needsQuote f then '"' :: (escField f ++ ['"']) else f

/-- Render one CSV row (no terminator). -/
def renderRow (fs : List PyStr) : PyStr :=
  List.intercalate [','] (fs.map renderField)

/-- The records of a column-oriented table, in row order. -/
def tableRows (df : Table) : List (List PyStr) :=
  (df.map Prod.snd).transpose

/-- The lines `to_csv` writes: the header row of column names, then one row
per record. -/
def toCsvLines (df : Table) : List PyStr :=
  renderRow (df.map Prod.fst) :: (tableRows df).map renderRow

/-- The full CSV text: every line followed by a newline. -/
def toCsv (df : Table) : PyStr :=
  (toCsvLines df).foldr (fun l acc => l ++ '\n' :: acc) []

/-- Split on a separator character (always at least one piece). -/
def splitOnChar (sep : Char) : PyStr → List PyStr
  | [] => [[]]
  | c :: rest =>
    if c = sep then [] :: splitOnChar sep rest
    else
      match splitOnChar sep rest with
      | [] => [[c]]
      | h :: t => (c :: h) :: t

/-- CSV line parser (state machine over one physical line; fields of these
datasets contain no line breaks).  `acc` is the current field reversed; the
fuel, instantiated with the line length, makes the recursion structural. -/
def parseLineGo (inQ : Bool) (acc : PyStr) : Nat → PyStr → List PyStr
  | _, [] => [acc.reverse]
  | 0, s => [acc.reverse ++ s]
  | fuel + 1, c :: rest =>
    if inQ then
      if c = '"' then
        match rest with
        | '"' :: rest2 => parseLineGo true ('"' :: acc) fuel rest2
        | _ => parseLineGo false acc fuel rest
      else parseLineGo true (c :: acc) fuel rest
    else
      if c = ',' then acc.reverse :: parseLineGo false [] fuel rest
      else if c = '"' then parseLineGo true acc fuel rest
      else parseLineGo false (c :: acc) fuel rest

/-- Parse one CSV line into its fields. -/
def parseCsvLine (l : PyStr) : List PyStr :=
  parseLineGo false [] l.length l

/-- Drop the empty piece a trailing newline produces. -/
def stripFinalEmpty (ls : List PyStr) : List PyStr :=
  if ls.getLast? = some [] then ls.dropLast else ls

/-- Re-read a CSV text into rows of fields. -/
def fromCsv (t : PyStr) : List (List PyStr) :=
  (stripFinalEmpty (splitOnChar '\n' t)).map parseCsvLine

/-! ## Datasets written to CSV -/

/-- The free-tier comparison table of src/archive/script.py lines 4-21,
exported at line 29 (numeric cells as their decimal strings). -/
def freeTierTable : Table := [
  col "Model" ["Gemini 2.5 Pro", "Gemini 2.5 Flash", "Gemini 2.5 Flash-Lite",
    "Gemini 2.0 Flash", "Gemini 2.0 Flash-Lite", "Gemini 1.5 Flash",
    "Gemini 1.5 Flash-8B", "Gemma 3 & 3n"],
  col "RPM (Requests/Min)" ["5", "10", "15", "15", "30", "15", "15", "30"],
  col "TPM (Tokens/Min)" ["250,000", "250,000", "250,000", "1,000,000",
    "1,000,000", "250,000", "250,000", "15,000"],
  col "RPD (Requests/Day)" ["100", "250", "1000", "200", "200", "50", "50",
    "14400"],
  col "Input Cost" ["Not Available", "Free", "Free", "Free", "Free", "Free",
    "Free", "Free"],
  col "Output Cost" ["Not Available", "Free", "Free", "Free", "Free", "Free",
    "Free", "Free"],
  col "Best For Chatbots" ["No (Not available on free)", "Yes", "Yes", "Yes",
    "Yes", "Yes (Deprecated)", "Yes (Deprecated)", "Limited (Low TPM)"]]

/-- The restructured feature-customization table of src/archive/script (3).py
lines 59-104 (`data`), exported at line 112. -/
def featureCustomizationTable : Table := [
  col "Feature Category" ["Response Style", "Memory System", "Learning Focus",
    "Fact-Checking Priority", "Multimodal Features", "Automation Level",
    "Engagement Features", "Privacy Level"],
  col "Gaming Communities" [
    "Fast, casual, meme-friendly",
    "Short-term game sessions and player stats",
    "Gaming strategies, tips, and meta updates",
    "Game stats and competitive data priority",
    "Voice message analysis, game screenshots",
    "High - automated moderation and events",
    "XP tracking, leaderboards, tournaments",
    "Standard - public gaming channels"],
  col "Educational Groups" [
    "Patient, encouraging, formal tone",
    "Long-term academic progress tracking",
    "Study habits and knowledge gap identification",
    "Academic sources and educational content priority",
    "Document/PDF analysis, study materials",
    "Medium - scheduled study assistance",
    "Study groups, progress tracking, quizzes",
    "Enhanced - student data protection"],
  col "Content Creators" [
    "Brand-aligned, engaging, promotional",
    "Content performance and audience history",
    "Audience preferences and engagement patterns",
    "Trend data and content accuracy verification",
    "Image/video analysis, content optimization",
    "Medium - content scheduling and promotion",
    "Analytics dashboards, growth tracking, feedback",
    "Standard - creator-controlled privacy"],
  col "Professional Communities" [
    "Professional, concise, business-focused",
    "Project context and meeting history",
    "Work patterns and productivity optimization",
    "Business/industry sources and compliance data",
    "Document collaboration, presentation analysis",
    "Low - human oversight for important decisions",
    "Meeting summaries, task management, networking",
    "High - enterprise compliance and security"]]

/-- The demographics summary table of src/archive/script (3).py lines 116-124
(`summary_stats`), exported at line 131. -/
def summaryStatsTable : Table := [
  col "User Group" ["Gaming Communities", "Educational Groups",
    "Content Creators", "Professional Communities"],
  col "Typical Age Range" ["16-34", "16-25", "18-35", "25-45"],
  col "Server Size Range" ["50-5,000", "20-500", "100-10,000", "50-1,000"],
  col "Daily Active %" ["60-80%", "40-60%", "50-70%", "30-50%"],
  col "Voice Usage" ["Very High", "Medium", "Medium-High", "Low-Medium"],
  col "Peak Activity" ["Evenings/Weekends", "Study Hours",
    "Content Release Times", "Business Hours"],
  col "Primary Use Case" ["Entertainment/Competition", "Learning/Collaboration",
    "Community Building", "Professional Work"]]

/-- The abandoned first literal of src/archive/script (3).py lines 5-56
(`feature_data`): its value lists are ragged (32, 17 and 17 entries; two of
the lists run two user groups together), and no DataFrame is built from it. -/
def featureDataRagged : Table := [
  col "Feature Category" ["Response Style", "Response Style", "Response Style",
    "Response Style", "Memory System", "Memory System", "Memory System",
    "Memory System", "Learning Focus", "Learning Focus", "Learning Focus",
    "Learning Focus", "Fact-Checking", "Fact-Checking", "Fact-Checking",
    "Fact-Checking", "Multimodal Features", "Multimodal Features",
    "Multimodal Features", "Multimodal Features", "Automation Level",
    "Automation Level", "Automation Level", "Automation Level",
    "Engagement Features", "Engagement Features", "Engagement Features",
    "Engagement Features", "Privacy Level", "Privacy Level", "Privacy Level",
    "Privacy Level"],
  col "Gaming Communities" [
    "Fast, casual, meme-friendly",
    "Short-term game sessions",
    "Gaming strategies and tips",
    "Game stats and meta updates",
    "Voice message analysis",
    "High - automated moderation",
    "XP tracking, tournaments",
    "Standard - public channels",
    "Educational Groups",
    "Patient, encouraging, formal",
    "Long-term academic progress",
    "Study habits and knowledge gaps",
    "Academic sources priority",
    "Document and PDF analysis",
    "Medium - scheduled assistance",
    "Study groups, progress tracking",
    "Enhanced - student data protection"],
  col "Content Creators" [
    "Brand-aligned, engaging",
    "Content performance history",
    "Audience preferences patterns",
    "Trend and engagement data",
    "Image and video analysis",
    "Medium - content scheduling",
    "Analytics dashboards, growth tracking",
    "Standard - creator-controlled",
    "Professional Communities",
    "Professional, concise, helpful",
    "Project and meeting context",
    "Work patterns and efficiency",
    "Business and industry sources",
    "Document collaboration features",
    "Low - human oversight required",
    "Meeting summaries, task management",
    "High - enterprise compliance"]]

/-- `pd.DataFrame(columns)` on a dict of lists: fails unless all value lists
have the same length (`ValueError: All arrays must be of the same length`). -/
def rectangular (df : Table) : Bool :=
  match df with
  | [] => true
  | c :: rest => rest.all (fun k => k.2.length = c.2.length)

/-- `pd.DataFrame` as the scripts call it. -/
def mkDataFrame (df : Table) : Except String Table :=
  if rectangular df then Except.ok df
  else Except.error "All arrays must be of the same length"

/-- The column dicts src/archive/script (3).py actually passes to
`pd.DataFrame` (lines 106 and 126) and then exports via `to_csv`
(lines 112 and 131). -/
def scriptThreeTableSources : List Table :=
  [featureCustomizationTable, summaryStatsTable]

/-! ## Range parsing (src/archive/chart_script (3).py lines 47-56) -/

/-- Digits-with-underscores tail of a Python integer literal: after a digit,
an optional single underscore must be followed by another digit. -/
def parseDigitsGo (acc : Nat) : PyStr → Option Nat
  | [] => some acc
  | c :: rest =>
    if c.isDigit then parseDigitsGo (10 * acc + (c.toNat - 48)) rest
    else if c = '_' then
      match rest with
      | d :: rest2 =>
        if d.isDigit then parseDigitsGo (10 * acc + (d.toNat - 48)) rest2
        else none
      | [] => none
    else none

/-- The digit run of a Python `int()` argument (ASCII digits; the datasets
contain no other digit scripts). -/
def parsePyNat (s : PyStr) : Option Nat :=
  match s with
  | [] => none
  | c :: rest =>
    if c.isDigit then parseDigitsGo (c.toNat - 48) rest else none

/-- Python `int(s)`: strip whitespace, optional sign, digit run. -/
def parsePyInt (s : PyStr) : Option Int :=
  match pyStrip s with
  | '+' :: rest => (parsePyNat rest).map Int.ofNat
  | '-' :: rest => (parsePyNat rest).map (fun n => -(Int.ofNat n : Int))
  | t => (parsePyNat t).map Int.ofNat

/-- `a, b = map(int, seg.split('-'))`: succeeds exactly when the split yields
two pieces and both parse as Python ints; otherwise the statement raises
(`ValueError`, the spec's ParseError). -/
def parseIntPair (seg : PyStr) : Except String (Int × Int) :=
  match splitOnChar '-' seg with
  | [a, b] =>
    match parsePyInt a, parsePyInt b with
    | some x, some y => Except.ok (x, y)
    | _, _ => Except.error "ValueError: invalid literal for int"
  | _ => Except.error "ValueError: unpacking"

/-- `demographics.split(',')[0].replace('Ages ', '')`. -/
def ageSegment (t : PyStr) : PyStr :=
  pyReplace ((splitOnChar ',' t).headD []) (S "Ages ") (S "")

/-- `demographics.split(',')[1].strip().split(' ')[0]`. -/
def memberRange (memberSeg : PyStr) : PyStr :=
  (splitOnChar ' ' (pyStrip memberSeg)).headD []

/-- The per-record demographics computation of chart_script (3).py lines
47-56: age pair first, then the member-size pair; any failure raises. -/
def parseDemographics (t : PyStr) : Except String (Int × Int × Int × Int) :=
  match parseIntPair (ageSegment t) with
  | Except.error e => Except.error e
  | Except.ok (a1, a2) =>
    match splitOnChar ',' t with
    | _ :: memberSeg :: _ =>
      match parseIntPair (memberRange memberSeg) with
      | Except.error e => Except.error e
      | Except.ok (m1, m2) => Except.ok (a1, a2, m1, m2)
    | _ => Except.error "IndexError: list index out of range"

/-- `(lo + hi) / 2` (exact here: Python's float division is exact on these
small values). -/
def midpoint (lo hi : Int) : ℚ := ((lo : ℚ) + (hi : ℚ)) / 2

/-- Did an `Except` computation return a value? -/
def exceptOk {ε α : Type} (e : Except ε α) : Bool :=
  match e with
  | Except.ok _ => true
  | Except.error _ => false

/-- The text has two Python-int tokens separated by a hyphen (the success
condition of `parseIntPair`). -/
def hasNumericPair (seg : PyStr) : Bool :=
  match splitOnChar '-' seg with
  | [a, b] => (parsePyInt a).isSome && (parsePyInt b).isSome
  | _ => false

/-- Success condition of the whole demographics computation. -/
def demographicsWellFormed (t : PyStr) : Bool :=
  hasNumericPair (ageSegment t) &&
    (match splitOnChar ',' t with
     | _ :: memberSeg :: _ => hasNumericPair (memberRange memberSeg)
     | _ => false)

/-! ## Flow-graph (Sankey) assembly, src/archive/chart_script (2).py -/

/-- `input_types` (line 40). -/
def inputTypes : List PyStr :=
  [S "Text", S "Images", S "Audio", S "Video", S "Documents"]

/-- Processing-stage label (lines 47-57): an if/elif chain with no else, so
an unmatched type appends nothing. -/
def processLabel (t : PyStr) : Option PyStr :=
  if t = S "Text" then some (S "NLP Process")
  else if t = S "Images" then some (S "Vision Process")
  else if t = S "Audio" then some (S "Audio Process")
  else if t = S "Video" then some (S "Video Process")
  else if t = S "Documents" then some (S "Doc Process")
  else none

/-- Output-stage label (lines 60-70), same if/elif shape. -/
def outputLabel (t : PyStr) : Option PyStr :=
  if t = S "Text" then some (S "Smart Chat")
  else if t = S "Images" then some (S "Visual Bot")
  else if t = S "Audio" then some (S "Voice Bot")
  else if t = S "Video" then some (S "Media Bot")
  else if t = S "Documents" then some (S "Study Bot")
  else none

/-- The flat node-label sequence (lines 42-70): input labels, then processing
labels, then output labels. -/
def sankeyLabels : List PyStr :=
  inputTypes.map (fun t => t ++ S " Input")
    ++ inputTypes.filterMap processLabel
    ++ inputTypes.filterMap outputLabel

/-- The link triples (source, target, value) in append order (lines 73-82):
for each `i < 5`, input `i` → processing `i+5`, then processing `i+5` →
output `i+10`, each with value 10. -/
def sankeyLinks : List (Nat × Nat × Nat) :=
  (List.range 5).flatMap (fun i => [(i, i + 5, 10), (i + 5, i + 10, 10)])

/-- The parallel arrays handed to `go.Sankey` (lines 94-108). -/
def sankeySources : List Nat := sankeyLinks.map (fun l => l.1)

def sankeyTargets : List Nat := sankeyLinks.map (fun l => l.2.1)

def sankeyValues : List Nat := sankeyLinks.map (fun l => l.2.2)

/-- The node/link part of the figure description handed to the renderer. -/
structure SankeyFigure where
  nodeLabels : List PyStr
  linkSource : List Nat
  linkTarget : List Nat
  linkValue : List Nat
deriving DecidableEq

/-- `go.Figure(data=[go.Sankey(...)])` (lines 94-108): pure record assembly,
no inspection of the arrays. -/
def mkSankeyFigure (labels : List PyStr) (sources targets values : List Nat) :
    SankeyFigure :=
  ⟨labels, sources, targets, values⟩

/-- The script's path from assembled arrays to the renderer call
`fig.write_image(...)` (line 116): the figure is built and handed over
unconditionally; the `Except` records that no input is ever rejected. -/
def sankeyPipeline (labels : List PyStr) (sources targets values : List Nat) :
    Except String SankeyFigure :=
  Except.ok (mkSankeyFigure labels sources targets values)

/-- Every link index refers to a node position. -/
def figureLinksInBounds (f : SankeyFigure) : Bool :=
  f.linkSource.all (fun i => i < f.nodeLabels.length) &&
    f.linkTarget.all (fun i => i < f.nodeLabels.length)

/-! ## Categorical color assignment -/

/-- The status loop of src/archive/chart_script.py lines 26-31: cyan for
`Current`, red otherwise. -/
def statusColor (s : PyStr) : PyStr :=
  if s = S "Current" then S "#1FB8CD" else S "#B4413C"

/-- The per-row color list the loop appends to. -/
def statusColors (statuses : List PyStr) : List PyStr :=
  statuses.map statusColor

/-- The category→color pairs the loop realizes, in dataset order. -/
def colorAssignment (statuses : List PyStr) : List (PyStr × PyStr) :=
  statuses.map (fun s => (s, statusColor s))

/-- The explicit fixed table of src/archive/chart_script_1.py lines 20-24. -/
def colorMap : List (PyStr × PyStr) :=
  [(S "Current", S "#1FB8CD"), (S "Deprecated", S "#B4413C"),
   (S "Limited", S "#D2BA4C")]

/-- `color_map[status]`. -/
def colorMapLookup (s : PyStr) : Option PyStr :=
  (colorMap.find? (fun kv => kv.1 == s)).map Prod.snd

/-- The Status column of chart_script_1.py's dataset (lines 8-14). -/
def statusesOne : List PyStr :=
  [S "Current", S "Current", S "Current", S "Current", S "Deprecated",
   S "Deprecated", S "Limited"]

/-! ## Nested-record report printer
(src/archive/script_1 (2).py lines 176-191; the script (2).py variant differs
only in not joining lists at the innermost level) -/

/-- The loosely-typed values the capability dictionaries hold. -/
inductive PyVal where
  | pyStr : PyStr → PyVal
  | pyInt : Int → PyVal
  | pyList : List PyVal → PyVal
  | pyDict : List (PyStr × PyVal) → PyVal

/-- Decimal rendering of `str(int)`. -/
def intToStr (i : Int) : PyStr := (toString i).toList

/-- Python `repr`, fuel-bounded on depth so the recursion through the nested
lists stays structural; the dictionaries in these scripts nest three levels
deep, so the slack fuel `pyStrOf` supplies is never exhausted.  String
escapes are not needed by these datasets. -/
def pyReprF : Nat → PyVal → PyStr
  | _, PyVal.pyInt i => intToStr i
  | _, PyVal.pyStr s => Char.ofNat 39 :: (s ++ [Char.ofNat 39])
  | 0, _ => []
  | fuel + 1, PyVal.pyList l =>
    '[' :: (List.intercalate (S ", ") (l.map (pyReprF fuel)) ++ [']'])
  | fuel + 1, PyVal.pyDict d =>
    Char.ofNat 123 ::
      (List.intercalate (S ", ")
        (d.map (fun kv =>
          pyReprF fuel (PyVal.pyStr kv.1) ++ (S ": " ++ pyReprF fuel kv.2)))
        ++ [Char.ofNat 125])

/-- Python `str(value)` as the f-strings use it: strings unquoted, containers
via `repr`. -/
def pyStrOf (v : PyVal) : PyStr :=
  match v with
  | PyVal.pyStr s => s
  | v => pyReprF 1000 v

/-- `', '.join(items)`: `TypeError` (the `Except.error`) on any non-string
item. -/
def pyJoinStrs (sep : PyStr) (items : List PyVal) : Except Unit PyStr := do
  let ss ← items.mapM (fun v =>
    match v with
    | PyVal.pyStr s => Except.ok s
    | _ => Except.error ())
  Except.ok (List.intercalate sep ss)

/-- Innermost loop, lines 185-189: `- subkey: ...` at eight spaces. -/
def printSubEntry (sk : PyStr) (sv : PyVal) : Except Unit PyStr :=
  match sv with
  | PyVal.pyList l => do
    let j ← pyJoinStrs (S ", ") l
    Except.ok (S "         - " ++ sk ++ (S ": " ++ j) ++ ['\n'])
  | _ =>
    Except.ok (S "         - " ++ sk ++ (S ": " ++ pyStrOf sv) ++ ['\n'])

/-- Middle loop body, lines 180-191: list → joined, dict → key line plus the
sub-loop, anything else → `key: value`. -/
def printEntry (k : PyStr) (v : PyVal) : Except Unit PyStr :=
  match v with
  | PyVal.pyList l => do
    let j ← pyJoinStrs (S ", ") l
    Except.ok (S "     • " ++ k ++ (S ": " ++ j) ++ ['\n'])
  | PyVal.pyDict d => do
    let subs ← d.mapM (fun kv => printSubEntry kv.1 kv.2)
    Except.ok ((S "     • " ++ k ++ (S ":" ++ ['\n'])) ++ subs.foldr (· ++ ·) [])
  | _ =>
    Except.ok (S "     • " ++ k ++ (S ": " ++ pyStrOf v) ++ ['\n'])

/-- One outer iteration, lines 177-191: the header line
`print(f"\n   {category.upper().replace('_', ' ')}:")`, then the entry loop
when the details are a dict (there is no else branch). -/
def printCategory (cat : PyStr) (details : PyVal) : Except Unit PyStr := do
  let head := '\n' :: (S "   " ++ pyReplace (cat.map Char.toUpper) (S "_") (S " ")
    ++ (S ":" ++ ['\n']))
  match details with
  | PyVal.pyDict d => do
    let es ← d.mapM (fun kv => printEntry kv.1 kv.2)
    Except.ok (head ++ es.foldr (· ++ ·) [])
  | _ => Except.ok head

/-- The whole printing loop over the top-level mapping.  A `TypeError` aborts
the script, so the run yields no completed report. -/
def printCapabilities (m : List (PyStr × PyVal)) : Except Unit PyStr := do
  let cs ← m.mapM (fun kv => printCategory kv.1 kv.2)
  Except.ok (cs.foldr (· ++ ·) [])

/-- The spec's two-level example `{"A": {"B": [1, 2], "C": 3}}` as written,
with integer list items. -/
def exampleMappingInts : List (PyStr × PyVal) :=
  [(S "A", PyVal.pyDict
    [(S "B", PyVal.pyList [PyVal.pyInt 1, PyVal.pyInt 2]),
     (S "C", PyVal.pyInt 3)])]

/-- The same example with the list items as the strings "1" and "2". -/
def exampleMappingStrs : List (PyStr × PyVal) :=
  [(S "A", PyVal.pyDict
    [(S "B", PyVal.pyList [PyVal.pyStr (S "1"), PyVal.pyStr (S "2")]),
     (S "C", PyVal.pyInt 3)])]

/-! ## Helper lemmas -/

theorem truncPlain_length_le (n : Nat) (s : PyStr) :
    (truncPlain n s).length ≤ n := by
  unfold truncPlain
  by_cases h : s.length > n
  · simp [h]
  · simp [h]
    omega

theorem truncEllipsis_length_le (n : Nat) (s : PyStr) :
    (truncEllipsis n s).length ≤ n + 3 := by
  unfold truncEllipsis
  by_cases h : s.length > n
  · simp [h]
  · simp [h]
    omega

theorem truncPlain_of_le (n : Nat) (t : PyStr) (h : t.length ≤ n) :
    truncPlain n t = t := by
  unfold truncPlain
  simp [Nat.not_lt.mpr h]

theorem truncPlain_idem (n : Nat) (s : PyStr) :
    truncPlain n (truncPlain n s) = truncPlain n s :=
  truncPlain_of_le n _ (truncPlain_length_le n s)

theorem truncEllipsis_take_eq (n : Nat) (s : PyStr) (h : s.length > n) :
    (s.take n ++ ['.', '.', '.']).take n = s.take n := by
  have hl : (s.take n).length = n := by
    simp [List.length_take]
    omega
  calc (s.take n ++ ['.', '.', '.']).take n
      = (s.take n ++ ['.', '.', '.']).take (s.take n).length := by rw [hl]
    _ = s.take n := List.take_left _ _

theorem truncEllipsis_idem (n : Nat) (s : PyStr) :
    truncEllipsis n (truncEllipsis n s) = truncEllipsis n s := by
  by_cases h : s.length > n
  · have h1 : truncEllipsis n s = s.take n ++ ['.', '.', '.'] := by
      unfold truncEllipsis
      simp [h]
    rw [h1]
    have hlen : (s.take n ++ ['.', '.', '.']).length > n := by
      simp [List.length_take]
      omega
    unfold truncEllipsis
    simp only [hlen, if_pos]
    rw [truncEllipsis_take_eq n s h]
  · have h1 : truncEllipsis n s = s := by
      unfold truncEllipsis
      simp [h]
    rw [h1]
    exact h1

theorem getcol_cons_ne (kv : PyStr × List PyStr) (rest : Table) (src : PyStr)
    (h : (kv.1 == src) = false) :
    getcol (kv :: rest) src = getcol rest src := by
  simp [getcol, List.find?, h]

theorem getcol_map_update_ne (df : Table) (name src : PyStr) (vals : List PyStr)
    (h : name ≠ src) :
    getcol (df.map (fun kv => if kv.1 == name then (name, vals) else kv)) src
      = getcol df src := by
  induction df with
  | nil => simp [getcol]
  | cons kv rest ih =>
    simp only [List.map_cons]
    by_cases hk : kv.1 = name
    · have h1 : (if (kv.1 == name) = true then (name, vals) else kv)
          = (name, vals) := by simp [hk]
      rw [h1]
      rw [getcol_cons_ne _ _ _ (by simpa using h)]
      rw [getcol_cons_ne _ _ _ (by rw [hk]; simpa using h)]
      exact ih
    · have h1 : (if (kv.1 == name) = true then (name, vals) else kv) = kv := by
        simp [hk]
      rw [h1]
      by_cases hs : kv.1 = src
      · simp [getcol, List.find?, hs]
      · rw [getcol_cons_ne _ _ _ (by simpa using hs)]
        rw [getcol_cons_ne _ _ _ (by simpa using hs)]
        exact ih

theorem getcol_setcol_ne (df : Table) (name src : PyStr) (vals : List PyStr)
    (h : name ≠ src) :
    getcol (setcol df name vals) src = getcol df src := by
  unfold setcol
  by_cases hmem : df.any (fun kv => kv.1 == name)
  · simp only [hmem, if_pos]
    exact getcol_map_update_ne df name src vals h
  · simp only [hmem, if_neg, Bool.not_eq_true]
    unfold getcol
    rw [List.find?_append]
    have hns : (name == src) = false := by
      simp
      exact h
    simp [List.find?, hns]

theorem exceptOk_parseIntPair (seg : PyStr) :
    exceptOk (parseIntPair seg) = hasNumericPair seg := by
  unfold parseIntPair hasNumericPair
  cases h : splitOnChar '-' seg with
  | nil => rfl
  | cons a rest =>
    cases rest with
    | nil => rfl
    | cons b rest2 =>
      cases rest2 with
      | nil =>
        cases hx : parsePyInt a <;> cases hy : parsePyInt b <;>
          simp [exceptOk, hx, hy]
      | cons c rest3 => rfl

theorem exceptOk_parseDemographics (t : PyStr) :
    exceptOk (parseDemographics t) = demographicsWellFormed t := by
  unfold parseDemographics demographicsWellFormed
  cases hage : parseIntPair (ageSegment t) with
  | error e =>
    have hag := exceptOk_parseIntPair (ageSegment t)
    rw [hage] at hag
    simp [exceptOk] at hag
    simp [exceptOk, hag]
  | ok p =>
    obtain ⟨a1, a2⟩ := p
    have hag := exceptOk_parseIntPair (ageSegment t)
    rw [hage] at hag
    simp [exceptOk] at hag
    cases hsplit : splitOnChar ',' t with
    | nil => simp [exceptOk, hag]
    | cons s0 rest =>
      cases rest with
      | nil => simp [exceptOk, hag]
      | cons m rest2 =>
        have hmem := exceptOk_parseIntPair (memberRange m)
        cases hm : parseIntPair (memberRange m) with
        | error e =>
          rw [hm] at hmem
          simp [exceptOk] at hmem
          simp [exceptOk, hag, hmem, hm]
        | ok q =>
          obtain ⟨m1, m2⟩ := q
          rw [hm] at hmem
          simp [exceptOk] at hmem
          simp [exceptOk, hag, hmem, hm]

/-! ## Claim theorems -/

/-- C1, counterexample: the claim `len(truncate(S,N)) <= N` fails for the
ellipsis-appending variant: on the first `Key Features` string of the MCP
dataset (73 characters) with N = 50, the code `x[:50] + '...'` returns 53
characters. -/
theorem C1_counterexample :
    ¬ ((truncEllipsis 50 (S "Send messages, read history, manage channels, user management, reactions")).length ≤ 50) := by
  decide

/-- C1, amended: the plain variant always returns at most N characters, but
the ellipsis variant appends the three-character marker after taking the
first N characters without reserving room for it, so its result is only
bounded by N + 3. -/
theorem C1_trunc_length_bounds (n : Nat) (s : PyStr) :
    (truncPlain n s).length ≤ n ∧ (truncEllipsis n s).length ≤ n + 3 :=
  ⟨truncPlain_length_le n s, truncEllipsis_length_le n s⟩

/-- C2: the Sankey assembly of chart_script (2).py produces exactly 15 node
labels and exactly 10 = 5 × (3 − 1) links; the links are pairwise distinct,
every link joins the node at positional index i of stage s (node 5s + i) to
the node at the same index i of stage s + 1 (node 5(s+1) + i), and every
source/target index is within [0, 15). -/
theorem C2_flow_graph_assembly :
    sankeyLabels.length = 15 ∧
    sankeyLinks.length = 5 * (3 - 1) ∧
    sankeySources.length = 10 ∧
    sankeyTargets.length = 10 ∧
    sankeyLinks.Nodup ∧
    (sankeyLinks.all fun l => decide (l.1 < 15) && decide (l.2.1 < 15))
      = true ∧
    (sankeyLinks.all fun l =>
      (List.range 2).any fun st => (List.range 5).any fun i =>
        decide (l.1 = 5 * st + i) && decide (l.2.1 = 5 * (st + 1) + i))
      = true := by
  decide

/-- C3: on `"Ages 16-34, 50-5000 members"` the per-record parser extracts the
first hyphen pair 16/34 (midpoint 25; the member pair 50/5000 has midpoint
2525, to which the script applies log10) ; `"no numbers here"` raises; and in
general a value is returned exactly when the expected segments contain two
`int()`-parseable tokens separated by a hyphen (`demographicsWellFormed`),
so every text without such a pair raises a ParseError. -/
theorem C3_range_parsing :
    parseDemographics (S "Ages 16-34, 50-5000 members")
      = Except.ok (16, 34, 50, 5000) ∧
    midpoint 16 34 = 25 ∧
    midpoint 50 5000 = 2525 ∧
    exceptOk (parseDemographics (S "no numbers here")) = false ∧
    (∀ t : PyStr, exceptOk (parseDemographics t) = demographicsWellFormed t) :=
  ⟨rfl, by norm_num [midpoint], by norm_num [midpoint], by decide,
    exceptOk_parseDemographics⟩

/-- C4, counterexample: there is no fail-fast validation between array
assembly and the renderer: on a mismatched input (one node label, a link
aiming at index 5) the pipeline still hands the renderer a figure, and that
figure fails the in-bounds check — the claim that a validation step fails
fast before the renderer is invoked is false. -/
theorem C4_counterexample :
    sankeyPipeline [S "A"] [0] [5] [10]
      = Except.ok (mkSankeyFigure [S "A"] [0] [5] [10]) ∧
    figureLinksInBounds (mkSankeyFigure [S "A"] [0] [5] [10]) = false :=
  ⟨rfl, by decide⟩

/-- C4, amended: the script performs no validation — every input is passed
to the renderer unchanged — but the arrays it actually assembles are all
in bounds, so the renderer never receives a malformed figure in this
script. -/
theorem C4_no_validation_actual_in_bounds :
    (∀ (labels : List PyStr) (sources targets values : List Nat),
      sankeyPipeline labels sources targets values
        = Except.ok (mkSankeyFigure labels sources targets values)) ∧
    figureLinksInBounds
      (mkSankeyFigure sankeyLabels sankeySources sankeyTargets sankeyValues)
      = true :=
  ⟨fun _ _ _ _ => rfl, by decide⟩

/-- C5: both truncation variants are idempotent — truncating an
already-truncated string with the same N returns it unchanged. -/
theorem C5_truncation_idempotent (n : Nat) (s : PyStr) :
    truncPlain n (truncPlain n s) = truncPlain n s ∧
    truncEllipsis n (truncEllipsis n s) = truncEllipsis n s :=
  ⟨truncPlain_idem n s, truncEllipsis_idem n s⟩

/-- C6: every category in an ordered status list receives exactly one color
(it is paired with `statusColor c`, and any color paired with it equals
that one), the color list has one entry per category, re-running the
assignment on an equal list yields an equal mapping, and the explicit fixed
table of chart_script_1.py covers every status of its dataset. -/
theorem C6_color_assignment (C : List PyStr) (c : PyStr) (hc : c ∈ C) :
    (c, statusColor c) ∈ colorAssignment C ∧
    (∀ col2 : PyStr, (c, col2) ∈ colorAssignment C → col2 = statusColor c) ∧
    (statusColors C).length = C.length ∧
    (∀ C2 : List PyStr, C2 = C → colorAssignment C2 = colorAssignment C) ∧
    (statusesOne.all fun s => (colorMapLookup s).isSome) = true := by
  refine ⟨List.mem_map_of_mem _ hc, ?_, by simp [statusColors],
    fun C2 h => by rw [h], by decide⟩
  intro col2 h2
  unfold colorAssignment at h2
  rw [List.mem_map] at h2
  obtain ⟨s, _, heq⟩ := h2
  injection heq with h3 h4
  subst h3
  exact h4.symm

/-- C6 witness: instantiating at the chart_script_1.py status column and the
category `Current`. -/
theorem C6_color_assignment_witness :
    (S "Current", statusColor (S "Current")) ∈ colorAssignment statusesOne :=
  (C6_color_assignment statusesOne (S "Current") (by decide)).1

/-- C7, counterexample: on the spec's example `{"A": {"B": [1, 2], "C": 3}}`
as written — with integer list items — the printing loop raises a TypeError
(`', '.join` rejects non-strings), so the claimed lines are never
produced. -/
theorem C7_counterexample :
    printCapabilities exampleMappingInts = Except.error () := rfl

/-- C7, amended: with the list items as the strings "1" and "2" the printer
produces exactly a line for `A`, an indented `B: 1, 2` line and an indented
`C: 3` line; with the integer items as written it raises TypeError. -/
theorem C7_printer_two_level :
    (printCapabilities exampleMappingStrs).map (splitOnChar '\n')
      = Except.ok [[], S "   A:", S "     • B: 1, 2", S "     • C: 3", []] ∧
    printCapabilities exampleMappingInts = Except.error () :=
  ⟨rfl, rfl⟩

/-- C8: for each record set the scripts export (8 records × 7 columns in
script.py, 8 × 5 and 4 × 7 in script (3).py), the CSV has a header row equal
to the declared column names and exactly one data row per record, and
re-reading the CSV recovers every value string exactly. -/
theorem C8_csv_roundtrip :
    ((toCsvLines freeTierTable).length = 1 + 8 ∧
      freeTierTable.length = 7 ∧
      fromCsv (toCsv freeTierTable)
        = freeTierTable.map Prod.fst :: tableRows freeTierTable) ∧
    ((toCsvLines featureCustomizationTable).length = 1 + 8 ∧
      featureCustomizationTable.length = 5 ∧
      fromCsv (toCsv featureCustomizationTable)
        = featureCustomizationTable.map Prod.fst
            :: tableRows featureCustomizationTable) ∧
    ((toCsvLines summaryStatsTable).length = 1 + 4 ∧
      summaryStatsTable.length = 7 ∧
      fromCsv (toCsv summaryStatsTable)
        = summaryStatsTable.map Prod.fst :: tableRows summaryStatsTable) :=
  ⟨⟨by decide, by decide, by decide⟩,
   ⟨by decide, by decide, by decide⟩,
   ⟨by decide, by decide, by decide⟩⟩

/-- C9: deriving a display label never mutates the source attribute — column
assignment under a different name leaves every other column unchanged (the
general frame lemma), and concretely the `Model` column of chart_script.py
and the `Server Name` column of the MCP script still hold their original
values after every label-derivation step. -/
theorem C9_labels_nondestructive (df : Table) (name src : PyStr)
    (vals : List PyStr) (h : name ≠ src) :
    getcol (setcol df name vals) src = getcol df src ∧
    getcol geminiAfterShort (S "Model") = getcol geminiRateTable (S "Model") ∧
    getcol mcpStep4 (S "Server Name") = getcol mcpTable (S "Server Name") :=
  ⟨getcol_setcol_ne df name src vals h, by decide, by decide⟩

/-- C9 witness: the frame lemma applied to the concrete `Short_Model`
assignment of chart_script.py. -/
theorem C9_labels_nondestructive_witness :
    getcol (setcol geminiRateTable (S "Short_Model") []) (S "Model")
      = getcol geminiRateTable (S "Model") :=
  (C9_labels_nondestructive geminiRateTable (S "Short_Model") (S "Model") []
    (by decide)).1

/-- C10: every column dict script (3).py passes to `pd.DataFrame` and then
exports is rectangular — the restructured table has five columns (the four
user groups plus `Feature Category`) of exactly 8 entries each, and the
summary table is rectangular too, so construction succeeds — while the
abandoned `feature_data` literal is ragged (so `pd.DataFrame` would raise)
and is not among the dicts passed to table construction. -/
theorem C10_rectangular_sources :
    rectangular featureCustomizationTable = true ∧
    (featureCustomizationTable.all fun c => c.2.length == 8) = true ∧
    featureCustomizationTable.length = 5 ∧
    (scriptThreeTableSources.all fun t => rectangular t) = true ∧
    (scriptThreeTableSources.all fun t => exceptOk (mkDataFrame t)) = true ∧
    rectangular featureDataRagged = false ∧
    exceptOk (mkDataFrame featureDataRagged) = false ∧
    featureDataRagged ∉ scriptThreeTableSources :=
  ⟨by decide, by decide, by decide, by decide, by decide, by decide,
   by decide, by decide⟩

end Chatterbot
